import Mathlib

/-
Shallow embedding of the crystalize-group route builder (src/src/index.js).

A Group holds `catchers`, `middlewares.before`, `middlewares.after` and
`items`; builder operations mutate it and `collectRoutes` flattens the
tree into routes.  JS dynamic values that flow through the handler and
middleware positions are modelled by `HVal`; callbacks are identified by
a numeric token.  Fallible operations return `Except JsError`.

The module's `Group.errors` registry (index.js lines 38-44) defines only
`InvalidCatchError` and `InvalidHandlerSpecificationError`; every other
`Group.errors.<Name>` accessed by the code (`InvalidPathError`,
`InvalidMethodsError`, `InvalidMethodError`, `InvalidHandlersError`,
`HandlerCannotBeGroupError`) is `undefined`, so `new Group.errors.<Name>(x)`
raises a TypeError ("... is not a constructor"); this is modelled by
`JsError.typeErrorNotAConstructor`.  The HTTP-verb shortcut methods
(get/post/put/patch/delete) are not modelled: no claim exercises them and
the spec flags their bodies as a typo.
-/

namespace Crystalize

/-- JS runtime values that appear in handler, middleware and catcher
positions: a bare function (identified by a token), a handler-like object
with `name`, `respondsTo` and `callback` properties (`none` models the JS
`undefined` / `null` readings used by the code), a Group instance (only its
`instanceof Group` tag is ever consulted by the modelled checks), or an
array of values (arrays arise from the `addHandlers` recursion, which
passes its rest parameter as a single positional argument). -/
inductive HVal : Type where
  | fn (id : Nat)
  | obj (name : Option String) (respondsTo : Option String) (callback : HVal)
  | grp
  | arr (elems : List HVal)

mutual

/-- A route group (index.js constructor, lines 23-36): `catchers`,
`middlewares.after`, `middlewares.before`, `items`, in that field order. -/
inductive Group : Type where
  | mk (catchers : List HVal) (middlewaresAfter : List HVal)
       (middlewaresBefore : List HVal) (items : List Group.Item)

/-- An element of `Group.items`: the builder pushes objects tagged
`type: "group"` (from addGroup, possibly with an `undefined` group when the
second argument is omitted) or `type: "handler"` (from addHandlers). -/
inductive Group.Item : Type where
  | group (path : Option String) (grp : Option Group)
  | handler (methods : List String) (path : String) (handlers : List HVal)

end

def Group.catchers : Group → List HVal
  | .mk c _ _ _ => c

def Group.middlewaresAfter : Group → List HVal
  | .mk _ a _ _ => a

def Group.middlewaresBefore : Group → List HVal
  | .mk _ _ b _ => b

def Group.items : Group → List Group.Item
  | .mk _ _ _ i => i

/-- A freshly constructed group: all four lists empty (index.js lines 26-31). -/
def Group.new : Group := .mk [] [] [] []

/-- `this.items.push(item)` (index.js lines 57-62 and 120-126). -/
def Group.pushItem : Group → Group.Item → Group
  | .mk c a b i, it => .mk c a b (i ++ [it])

/-- Errors the modelled code can raise.  `invalidCatch` and
`invalidHandlerSpec` are the two error classes actually present in
`Group.errors`; `typeErrorNotAConstructor` models `new undefined(...)` at
the throw sites whose error class is missing from the registry;
`typeErrorNotAFunction` models calling a property that is `undefined`;
`referenceError` models reading an undeclared identifier; `badType` is the
generic `Error` thrown by `collectRoutes` (line 203). -/
inductive JsError : Type where
  | invalidCatch (typeofCallback : String)
  | invalidHandlerSpec (message : String)
  | typeErrorNotAConstructor (missingName : String)
  | typeErrorNotAFunction (accessPath : String)
  | referenceError (ident : String)
  | badType (tag : String)
deriving DecidableEq

/-- JS `path.indexOf("/") === 0`: the string's first character is `/`. -/
def startsWithSlash (s : String) : Bool :=
  match s.data with
  | [] => false
  | c :: _ => c = '/'

/-- JS `s.trim().length === 0`: every character is whitespace. -/
def isBlank (s : String) : Bool :=
  s.data.all Char.isWhitespace

/-- First argument of `addGroup`: either a path value (string or null) or a
Group instance (the single-argument form, index.js line 49). -/
inductive AddGroupFst : Type where
  | path (p : Option String)
  | grp (g : Group)

/-- Body of addGroup after the instanceof shortcut (index.js lines 53-64):
validate the path, then push a `type: "group"` item. -/
def Group.addGroupChecked (self : Group) (path : Option String)
    (sub : Option Group) : Except JsError Group :=
  match path with
  | some p =>
      if startsWithSlash p then .ok (self.pushItem (.group (some p) sub))
      else .error (.invalidHandlerSpec "path must either be null or start with /")
  | none => .ok (self.pushItem (.group none sub))

/-- `addGroup(path, group)` (index.js lines 48-65).  When the first argument
is a Group and the second is null, re-enter with `(null, path)`.  When the
first argument is a Group and the second is present, the path check calls
`path.indexOf`, which is `undefined` on a Group instance: TypeError. -/
def Group.addGroup (self : Group) (fst : AddGroupFst) (snd : Option Group) :
    Except JsError Group :=
  match fst, snd with
  | .grp g, none => self.addGroupChecked none (some g)
  | .grp _, some _ => .error (.typeErrorNotAFunction "path.indexOf")
  | .path p, sub => self.addGroupChecked p sub

/-- The `methods` argument of addHandlers: an array, a single string, or
null/undefined (index.js lines 73-79). -/
inductive MethodsArg : Type where
  | arr (methods : List String)
  | str (method : String)
  | null

/-- Property read `handler.respondsTo`: defined only on handler-like
objects, `undefined` on functions, Group instances and arrays. -/
def HVal.respondsTo : HVal → Option String
  | .obj _ r _ => r
  | _ => none

/-- String interpolation of a possibly-undefined value, as in the
`Invalid handler respondsTo: ...` message. -/
def displayUndefined : Option String → String
  | none => "undefined"
  | some s => s

/-- Normalization step inside the map callback (index.js lines 100-106):
a bare function becomes `{name: null, respondsTo: "then", callback}`;
anything else is left as-is. -/
def normalizeHandler : HVal → HVal
  | .fn id => .obj none (some "then") (.fn id)
  | h => h

/-- The inner validation loop (index.js lines 107-115), which iterates the
ORIGINAL, pre-normalization handler list: a Group instance triggers
`new Group.errors.HandlerCannotBeGroupError(...)` (missing from the
registry, hence TypeError); then any element whose `respondsTo` is neither
"then" nor "catch" triggers InvalidHandlerSpecificationError. -/
def validateHandlers : List HVal → Except JsError Unit
  | [] => .ok ()
  | h :: rest =>
      match h with
      | .grp => .error (.typeErrorNotAConstructor "HandlerCannotBeGroupError")
      | other =>
          if other.respondsTo = some "then" ∨ other.respondsTo = some "catch" then
            validateHandlers rest
          else
            .error (.invalidHandlerSpec
              ("Invalid handler respondsTo: \x27"
                ++ displayUndefined other.respondsTo ++ "\x27"))

/-- `handlers.map(handler => { normalize; inner loop over handlers; return })`
(index.js lines 99-118).  During the map the name `handlers` still denotes
the original list, so the loop re-validates the original list once per
element. -/
def mapHandlers (orig : List HVal) : Except JsError (List HVal) :=
  orig.mapM (fun h => do
    let normalized := normalizeHandler h
    let _ ← validateHandlers orig
    pure normalized)

/-- Main body of addHandlers once `methods` is an array (index.js lines
81-128): validate path, methods, each method, the handler list; map the
handlers; push a `type: "handler"` item.  The JS rest parameter is always
an array, so `!Array.isArray(handlers)` never fires. -/
def Group.addHandlersArray (self : Group) (methods : List String)
    (path : Option String) (handlers : List HVal) : Except JsError Group :=
  match path with
  | none => .error (.typeErrorNotAConstructor "InvalidPathError")
  | some p =>
      if ¬ startsWithSlash p then
        .error (.typeErrorNotAConstructor "InvalidPathError")
      else if methods.length = 0 then
        .error (.typeErrorNotAConstructor "InvalidMethodsError")
      else if methods.any isBlank then
        .error (.typeErrorNotAConstructor "InvalidMethodError")
      else if handlers.length = 0 then
        .error (.typeErrorNotAConstructor "InvalidHandlersError")
      else
        (mapHandlers handlers).map (fun hs =>
          self.pushItem (.handler methods p hs))

/-- `addHandlers(methods, path, ...handlers)` (index.js lines 72-129).
When `methods` is not an array the code re-enters with `[ ]` or
`[ methods ]` and passes the rest array `handlers` as ONE positional
argument, so the re-entered call sees a singleton list containing the
original array (no spread at lines 75 and 77). -/
def Group.addHandlers (self : Group) (methods : MethodsArg)
    (path : Option String) (handlers : List HVal) : Except JsError Group :=
  match methods with
  | .null => self.addHandlersArray [] path [.arr handlers]
  | .str s => self.addHandlersArray [s] path [.arr handlers]
  | .arr ms => self.addHandlersArray ms path handlers

/-- `addHandler(methods, path, handler)` (index.js lines 69-71). -/
def Group.addHandler (self : Group) (methods : MethodsArg)
    (path : Option String) (handler : HVal) : Except JsError Group :=
  self.addHandlers methods path [handler]

/-- `before(middleware)` (index.js lines 153-157): unshift onto
`middlewares.before`. -/
def Group.before : Group → HVal → Group
  | .mk c a b i, m => .mk c a (m :: b) i

/-- `after(middleware)` (index.js lines 134-138): push onto
`middlewares.after`. -/
def Group.after : Group → HVal → Group
  | .mk c a b i, m => .mk c (a ++ [m]) b i

/-- `around(middleware)` (index.js lines 143-148): `before(middleware.before)`
then `after(middleware.after)`; the two property reads are passed in. -/
def Group.around (self : Group) (mwBefore mwAfter : HVal) : Group :=
  (self.before mwBefore).after mwAfter

/-- `catch(callback)` (index.js lines 161-168): a non-function argument
raises InvalidCatchError(typeof callback); otherwise the code executes
`this.catchers.push(handler)` where `handler` is an undeclared identifier,
raising a ReferenceError before anything is appended. -/
def Group.catchOp (_self : Group) (callback : HVal) : Except JsError Group :=
  match callback with
  | .fn _ => .error (.referenceError "handler")
  | other => .error (.invalidCatch (match other with
      | .fn _ => "function"
      | _ => "object"))

/-- A collected route (the objects pushed by appendToRoutes). -/
structure Route : Type where
  methods : List String
  path : String
  handlers : List HVal

/-- `this.catchers.map((catcher, i) => ({name: GroupCatcher_i,
respondsTo: "catch", callback: catcher}))` (index.js lines 182-186),
with the running index made explicit. -/
def catchersToHandlers (i : Nat) : List HVal → List HVal
  | [] => []
  | c :: rest =>
      .obj (some ("GroupCatcher_" ++ toString i)) (some "catch") c
        :: catchersToHandlers (i + 1) rest

/-- The body of appendToRoutes (index.js lines 174-189): copy the route,
replacing `handlers` by before ++ route.handlers ++ after ++ converted
catchers, reading the three lists from the enclosing group. -/
def wrap (bef aft cat : List HVal) (r : Route) : Route :=
  { r with handlers := bef ++ r.handlers ++ aft ++ catchersToHandlers 0 cat }

mutual

/-- `collectRoutes()` (index.js lines 172-208): iterate `this.items`,
dispatch on each item's `type` tag, and return the accumulated routes.
The three middleware/catcher lists of `this` are what appendToRoutes
closes over. -/
def Group.collectRoutes : Group → Except JsError (List Route)
  | .mk c a b items => collectItems b a c items

/-- The `for (let item of this.items)` loop (index.js lines 191-205),
accumulating into `routes` and propagating the first thrown error. -/
def collectItems (bef aft cat : List HVal) :
    List Group.Item → Except JsError (List Route)
  | [] => .ok []
  | item :: rest =>
      match collectItem bef aft cat item with
      | .error e => .error e
      | .ok rs =>
          match collectItems bef aft cat rest with
          | .error e => .error e
          | .ok more => .ok (rs ++ more)

/-- One iteration of the loop.  A `type: "group"` item recursively collects
the subgroup, prefixes each subroute's path with `item.path || ""`, and
wraps it with the CURRENT group's lists; a group item whose `group` is
undefined makes `item.group.collectRoutes()` a TypeError.  An item tagged
`"handler"` matches neither the `=== "group"` branch nor the `=== "route"`
branch (line 200 tests for the tag "route", which no builder operation ever
assigns), so it falls into `throw new Error(...)` at line 203. -/
def collectItem (bef aft cat : List HVal) :
    Group.Item → Except JsError (List Route)
  | .group p (some sub) =>
      match sub.collectRoutes with
      | .error e => .error e
      | .ok subs =>
          .ok (subs.map (fun r =>
            wrap bef aft cat { r with path := (p.getD "") ++ r.path }))
  | .group _ none => .error (.typeErrorNotAFunction "item.group.collectRoutes")
  | .handler _ _ _ => .error (.badType "Bad type: \x27handler\x27")

end

/-- A call of the method `collectRoutes()` viewed with the receiver's state
made explicit: the method body (index.js lines 172-208) reads
`this.items`, `this.middlewares.before`, `this.middlewares.after` and
`this.catchers` and builds fresh arrays and objects (`routes.push` targets
a local array; every pushed object is a fresh spread copy); it contains no
assignment to `this` or to any group reachable from it, so the post-state
equals the pre-state. -/
def collectRoutesCall (g : Group) : Except JsError (List Route) × Group :=
  (g.collectRoutes, g)

/-! Auxiliary list lemmas used by the claim theorems. -/

theorem listGetAppendOffset {α : Type} (l₁ l₂ : List α) (i : Nat) :
    (l₁ ++ l₂).get? (l₁.length + i) = l₂.get? i := by
  induction l₁ with
  | nil => simp
  | cons a t ih =>
      have e : (a :: t).length + i = (t.length + i) + 1 := by
        simp [Nat.succ_add]
      rw [e]
      simpa using ih

theorem catchersToHandlersGet (cat : List HVal) (j i : Nat) (h : i < cat.length) :
    (catchersToHandlers j cat).get? i
      = some (.obj (some ("GroupCatcher_" ++ toString (j + i))) (some "catch")
          (cat.get ⟨i, h⟩)) := by
  induction cat generalizing j i with
  | nil => exact absurd h (Nat.not_lt_zero i)
  | cons c rest ih =>
      cases i with
      | zero => simp [catchersToHandlers]
      | succ n =>
          have h' : n < rest.length := Nat.lt_of_succ_lt_succ h
          have e : j + (n + 1) = (j + 1) + n := by omega
          simpa [catchersToHandlers, e] using ih (j + 1) n h'

/-! Claim theorems. -/

/-- C1: the claim's scenario cannot run as specified.  Registering
`addHandlers(["get"], "/x", fn)` with a single bare callback does not
succeed: the validation loop inside the map runs over the
pre-normalization list, where the bare function's `respondsTo` is
undefined, so registration throws InvalidHandlerSpecificationError.
Moreover, even for a successfully registered handler item (using an
already-normalized handler object), `collectRoutes` throws the generic
"Bad type" error because the collector tests for the tag "route" while
the builder stores "handler". -/
theorem C1_single_handler_registration_and_collection_fail :
    Group.addHandlers Group.new (.arr ["get"]) (some "/x") [.fn 0]
      = .error (.invalidHandlerSpec "Invalid handler respondsTo: \x27undefined\x27")
    ∧ Group.collectRoutes
        (Group.new.pushItem (.handler ["get"] "/x" [.obj none (some "then") (.fn 0)]))
      = .error (.badType "Bad type: \x27handler\x27") :=
  ⟨rfl, rfl⟩

/-- C2: the wrapped route's handler sequence is exactly the group's before
list as stored, then the route's own handlers, then the after list as
stored, then the catchers converted to `GroupCatcher_<i>` Catch-handlers in
registration order; in particular, the element at position
`|before| + |own| + |after| + i` is the converted form of the i-th
catcher. -/
theorem C2_wrap_handler_order (bef aft cat : List HVal) (r : Route)
    (i : Nat) (h : i < cat.length) :
    (wrap bef aft cat r).handlers
      = bef ++ r.handlers ++ aft ++ catchersToHandlers 0 cat
    ∧ (wrap bef aft cat r).handlers.get?
        (bef.length + r.handlers.length + aft.length + i)
      = some (.obj (some ("GroupCatcher_" ++ toString i)) (some "catch")
          (cat.get ⟨i, h⟩)) := by
  refine ⟨rfl, ?_⟩
  have hLHS : (wrap bef aft cat r).handlers
      = (bef ++ r.handlers ++ aft) ++ catchersToHandlers 0 cat := rfl
  have e : bef.length + r.handlers.length + aft.length + i
      = (bef ++ r.handlers ++ aft).length + i := by
    simp only [List.length_append]
  rw [hLHS, e, listGetAppendOffset, catchersToHandlersGet cat 0 i h,
    Nat.zero_add]

/-- C2 witness: the theorem applied at a concrete group state and route. -/
theorem C2_wrap_handler_order_witness :
    (0 : Nat) < ([HVal.fn 5] : List HVal).length
    ∧ ((wrap [HVal.fn 9] [] [HVal.fn 5] (Route.mk ["get"] "/x" [HVal.fn 4])).handlers
          = [HVal.fn 9] ++ [HVal.fn 4] ++ [] ++ catchersToHandlers 0 [HVal.fn 5]
       ∧ (wrap [HVal.fn 9] [] [HVal.fn 5] (Route.mk ["get"] "/x" [HVal.fn 4])).handlers.get? 2
          = some (.obj (some ("GroupCatcher_" ++ toString 0)) (some "catch") (HVal.fn 5))) :=
  ⟨by decide,
   C2_wrap_handler_order [HVal.fn 9] [] [HVal.fn 5]
     (Route.mk ["get"] "/x" [HVal.fn 4]) 0 (by decide)⟩

/-- C3: the nested scenario does not produce the claimed route.  A bare
callback cannot even be registered (the pre-normalization validation loop
rejects it); with an equivalent handler object the child and parent are
built exactly as the claim describes, but `collectRoutes` on the parent
throws the generic "Bad type" error (the collector tests for the tag
"route", never assigned by the builder) instead of yielding the
"/child/leaf" route with handler chain [pb, cb, handlerFn]. -/
theorem C3_nested_group_collection_fails :
    Group.addHandlers (Group.new.before (.fn 2)) (.arr ["get"]) (some "/leaf") [.fn 1]
      = .error (.invalidHandlerSpec "Invalid handler respondsTo: \x27undefined\x27")
    ∧ Group.addHandlers (Group.new.before (.fn 2)) (.arr ["get"]) (some "/leaf")
        [.obj none (some "then") (.fn 1)]
      = .ok ((Group.new.before (.fn 2)).pushItem
          (.handler ["get"] "/leaf" [.obj none (some "then") (.fn 1)]))
    ∧ Group.addGroup (Group.new.before (.fn 3)) (.path (some "/child"))
        (some ((Group.new.before (.fn 2)).pushItem
          (.handler ["get"] "/leaf" [.obj none (some "then") (.fn 1)])))
      = .ok ((Group.new.before (.fn 3)).pushItem
          (.group (some "/child") (some ((Group.new.before (.fn 2)).pushItem
            (.handler ["get"] "/leaf" [.obj none (some "then") (.fn 1)])))))
    ∧ Group.collectRoutes ((Group.new.before (.fn 3)).pushItem
        (.group (some "/child") (some ((Group.new.before (.fn 2)).pushItem
          (.handler ["get"] "/leaf" [.obj none (some "then") (.fn 1)])))))
      = .error (.badType "Bad type: \x27handler\x27") :=
  ⟨rfl, rfl, rfl, rfl⟩

/-- C4: `catch` never appends anything.  For a callable argument the body
executes `this.catchers.push(handler)` where `handler` is an undeclared
identifier, so the call throws a ReferenceError instead of appending the
supplied callback and returning the group; only the non-callable branch
(InvalidCatchError) behaves as claimed. -/
theorem C4_catch_throws_reference_error :
    Group.catchOp Group.new (.fn 7) = .error (.referenceError "handler")
    ∧ Group.catchOp Group.new (.obj none none (.fn 7))
        = .error (.invalidCatch "object") :=
  ⟨rfl, rfl⟩

/-- C5: none of the three calls raises the claimed identifiable error kind.
`InvalidMethodsError` and `InvalidPathError` are absent from the
`Group.errors` registry, so those throw sites raise a TypeError ("not a
constructor") carrying no offending value; and `addHandlers("get", "/x")`
raises InvalidHandlerSpecificationError rather than InvalidHandlersError,
because the methods-normalization recursion passes the empty rest array as
a single positional argument, making the handler list the non-empty
`[[]]`. -/
theorem C5_error_taxonomy_not_raised :
    Group.addHandlers Group.new (.arr []) (some "/x") [.fn 0]
      = .error (.typeErrorNotAConstructor "InvalidMethodsError")
    ∧ Group.addHandlers Group.new (.str "get") (some "nope") [.fn 0]
      = .error (.typeErrorNotAConstructor "InvalidPathError")
    ∧ Group.addHandlers Group.new (.str "get") (some "/x") []
      = .error (.invalidHandlerSpec "Invalid handler respondsTo: \x27undefined\x27") :=
  ⟨rfl, rfl, rfl⟩

/-- C6: collection does raise on a tree built solely through the builder
operations.  Registering a valid handler object succeeds and stores an
item tagged "handler", but the collector's dispatch tests the tag against
"route", so the supposedly unreachable generic-error branch fires. -/
theorem C6_collection_error_branch_reachable :
    Group.addHandlers Group.new (.arr ["get"]) (some "/x")
        [.obj none (some "then") (.fn 0)]
      = .ok (Group.new.pushItem
          (.handler ["get"] "/x" [.obj none (some "then") (.fn 0)]))
    ∧ Group.collectRoutes
        (Group.new.pushItem (.handler ["get"] "/x" [.obj none (some "then") (.fn 0)]))
      = .error (.badType "Bad type: \x27handler\x27") :=
  ⟨rfl, rfl⟩

/-- C7: `before` prepends onto `middlewares.before` and `after` appends onto
`middlewares.after`; consequently any route wrapped by the updated group
carries `[m2, m1, ...]` at the front of its handler chain after
`before(m1); before(m2)`, and `[..., m1, m2]` (just before the converted
catchers) after `after(m1); after(m2)`. -/
theorem C7_before_prepends_after_appends (g : Group) (m1 m2 : HVal) (r : Route) :
    ((g.before m1).before m2).middlewaresBefore = m2 :: m1 :: g.middlewaresBefore
    ∧ ((g.after m1).after m2).middlewaresAfter = g.middlewaresAfter ++ [m1, m2]
    ∧ (wrap ((g.before m1).before m2).middlewaresBefore
          ((g.before m1).before m2).middlewaresAfter
          ((g.before m1).before m2).catchers r).handlers
        = m2 :: m1 :: (g.middlewaresBefore ++ r.handlers ++ g.middlewaresAfter
            ++ catchersToHandlers 0 g.catchers)
    ∧ (wrap ((g.after m1).after m2).middlewaresBefore
          ((g.after m1).after m2).middlewaresAfter
          ((g.after m1).after m2).catchers r).handlers
        = g.middlewaresBefore ++ r.handlers
            ++ (g.middlewaresAfter ++ [m1, m2]) ++ catchersToHandlers 0 g.catchers := by
  obtain ⟨c, a, b, i⟩ := g
  refine ⟨rfl, ?_, rfl, ?_⟩
  · simp [Group.after, Group.middlewaresAfter]
  · simp [Group.after, Group.middlewaresBefore, Group.middlewaresAfter,
      Group.catchers, wrap]

/-- C8: the single-string form is NOT equivalent to the singleton-array
form.  The normalization recursion at lines 75/77 passes the rest array as
one positional argument instead of spreading it, so the re-entered call
sees `[handlers]`: with a valid handler object, `addHandlers(["get"], ...)`
succeeds while `addHandlers("get", ...)` throws
InvalidHandlerSpecificationError (the wrapping array has no `respondsTo`).
Absent methods do normalize to the empty list and fail at the
methods-empty check, but via a TypeError (`InvalidMethodsError` is missing
from the registry), not an InvalidMethods error. -/
theorem C8_string_methods_not_equivalent_to_array :
    Group.addHandlers Group.new (.arr ["get"]) (some "/x")
        [.obj none (some "then") (.fn 0)]
      = .ok (Group.new.pushItem
          (.handler ["get"] "/x" [.obj none (some "then") (.fn 0)]))
    ∧ Group.addHandlers Group.new (.str "get") (some "/x")
        [.obj none (some "then") (.fn 0)]
      = .error (.invalidHandlerSpec "Invalid handler respondsTo: \x27undefined\x27")
    ∧ Group.addHandlers Group.new .null (some "/x") [.fn 0]
      = .error (.typeErrorNotAConstructor "InvalidMethodsError") :=
  ⟨rfl, rfl, rfl⟩

/-- C9: `collectRoutes` is a pure read: invoking it twice with the
receiver's state threaded through yields structurally identical results,
and the call leaves the group (hence its items, middleware lists and
catchers, and every nested group) unchanged. -/
theorem C9_collect_routes_pure_idempotent (g : Group) :
    (collectRoutesCall ((collectRoutesCall g).2)).1 = (collectRoutesCall g).1
    ∧ (collectRoutesCall g).2 = g
    ∧ (collectRoutesCall ((collectRoutesCall g).2)).2 = g :=
  ⟨rfl, rfl, rfl⟩

/-- C10: `addGroup(group)` with a Group as sole argument re-enters as
`addGroup(null, group)`, is accepted without validation error (the path
check is skipped for null), stores a GroupItem with a null path, and at
collection time that item contributes the empty prefix: the subgroup's
routes keep their paths unchanged. -/
theorem C10_addGroup_single_argument (self sub : Group) (rs : List Route)
    (h : sub.collectRoutes = .ok rs) :
    self.addGroup (.grp sub) none = self.addGroup (.path none) (some sub)
    ∧ self.addGroup (.grp sub) none
        = .ok (self.pushItem (.group none (some sub)))
    ∧ collectItem self.middlewaresBefore self.middlewaresAfter self.catchers
        (.group none (some sub))
      = .ok (rs.map (fun r =>
          wrap self.middlewaresBefore self.middlewaresAfter self.catchers r)) := by
  refine ⟨rfl, rfl, ?_⟩
  rw [collectItem, h]
  have e : ∀ r : Route,
      wrap self.middlewaresBefore self.middlewaresAfter self.catchers
        { r with path := ((none : Option String).getD "") ++ r.path }
      = wrap self.middlewaresBefore self.middlewaresAfter self.catchers r := by
    intro r
    obtain ⟨ms, ⟨pdata⟩, hs⟩ := r
    rfl
  simp only [e]

/-- C10 witness: the theorem applied with an empty subgroup, whose
collection concretely yields the empty route list. -/
theorem C10_addGroup_single_argument_witness :
    Group.collectRoutes Group.new = .ok []
    ∧ (Group.new.addGroup (.grp Group.new) none
          = Group.new.addGroup (.path none) (some Group.new)
       ∧ Group.new.addGroup (.grp Group.new) none
          = .ok (Group.new.pushItem (.group none (some Group.new)))
       ∧ collectItem Group.new.middlewaresBefore Group.new.middlewaresAfter
            Group.new.catchers (.group none (some Group.new))
          = .ok (([] : List Route).map (fun r =>
              wrap Group.new.middlewaresBefore Group.new.middlewaresAfter
                Group.new.catchers r))) :=
  ⟨rfl, C10_addGroup_single_argument Group.new Group.new [] rfl⟩

end Crystalize
